import Mathlib

/-!
Shallow embedding of the ddns-updater core: the Namecheap (XML/query-string)
and DonDominio (JSON envelope) vendor adapters, and the health liveness
server's run loop, together with theorems checking the specification's
claims against this code.

Conventions:
- Go `net.IP` is a byte slice that may be nil; it is modelled as
  `Option NetIP`, with `none` for the nil slice.
- A Go call returning `(net.IP, error)` is modelled as `GoResult (Option NetIP)`:
  `ok a` models `(a, nil)`, `err e` models `(nil, e)` (every error return in
  both adapters returns a nil IP alongside the error), and `panicked msg`
  models a runtime panic (the call never returns).
- External collaborators (json.Unmarshal, the xml/json response decoders,
  http.Client.Do, the credential matcher) are modelled by the outcome they
  produce, passed as an argument; the adapter logic translated from the
  source is what consumes those outcomes.
-/

/-- IP version enum. Modelled from the spec: pkg/publicip/ipversion is not
under src/; §3 defines it as the enum IPv4 | IPv6. -/
inductive IPVersion
  | ip4
  | ip6
  deriving DecidableEq, Repr

/-- Error taxonomy. Modelled from the spec: internal/settings/errors is not
under src/; each constructor is one error sentinel referenced by the adapters
(§7), carrying the context its wrap site attaches via fmt.Errorf "%w: ...".
`settingsDecode` and `transport` model raw errors propagated untouched from
json.Unmarshal and http.Client.Do respectively. -/
inductive UpdateError
  | ipv6NotSupported
  | malformedPassword
  | emptyUsername
  | emptyPassword
  | emptyName
  | hostOnlyAt
  | settingsDecode (msg : String)
  | transport (msg : String)
  | badHTTPStatus (statusCode : Nat) (bodyLine : String)
  | unmarshalResponse (msg : String)
  | unsuccessfulResponse (vendorMsg : String)
  | unsuccessfulResponseCode (vendorMsg : String) (code : Int)
  | ipReceivedMalformed (ipText : String)
  | ipReceivedMismatch (ipText : String)
  deriving DecidableEq, Repr

/-- Outcome of a Go call returning `(net.IP, error)`: `ok a` is `(a, nil)`,
`err e` is `(nil, e)`, `panicked msg` is a runtime panic (no return). -/
inductive GoResult (α : Type)
  | ok (a : α)
  | err (e : UpdateError)
  | panicked (msg : String)
  deriving DecidableEq, Repr

/-- Go net.IP (stdlib, external): a non-nil IP address, either the 4-byte
IPv4 form or the 16-byte IPv6 form (`g` lists the 16 bytes). The nil slice
is `none` at use sites of `Option NetIP`. -/
inductive NetIP
  | v4 (a b c d : Nat)
  | v6 (g : List Nat)
  deriving DecidableEq, Repr

/-- Go ip.To4 (stdlib): the 4-byte form when the address is representable as
IPv4 (a 4-byte address, or a 16-byte IPv4-mapped address ::ffff:a.b.c.d),
nil (`none`) otherwise. -/
def NetIP.to4 : NetIP → Option NetIP
  | .v4 a b c d => some (.v4 a b c d)
  | .v6 bs =>
    match bs with
    | [0, 0, 0, 0, 0, 0, 0, 0, 0, 0, 255, 255, a, b, c, d] => some (.v4 a b c d)
    | _ => none

/-- Whether a non-nil address is IPv4-representable: Go `ip.To4() != nil`. -/
def NetIP.isV4 (ip : NetIP) : Bool := ip.to4.isSome

/-- The 16-byte form of an address (Go To16): IPv4 addresses map onto the
IPv4-mapped IPv6 bytes. -/
def NetIP.to16 : NetIP → List Nat
  | .v4 a b c d => [0, 0, 0, 0, 0, 0, 0, 0, 0, 0, 255, 255, a, b, c, d]
  | .v6 bs => bs

/-- Go ip.To4 lifted to a possibly-nil net.IP: To4 on the nil slice is nil. -/
def netIPTo4 : Option NetIP → Option NetIP
  | none => none
  | some x => x.to4

/-- Go net.IP.Equal (stdlib): value equality across the 4-byte and 16-byte
representations of the same IPv4 address; two nil slices are equal, and a nil
slice never equals a non-nil one. -/
def netIPEqual : Option NetIP → Option NetIP → Bool
  | none, none => true
  | some x, some y => x.to16 == y.to16
  | _, _ => false

/-- Decimal digit value of a character, or none. -/
def decDigitVal (c : Char) : Option Nat :=
  if '0' ≤ c ∧ c ≤ '9' then some (c.toNat - '0'.toNat) else none

/-- Hex digit value of a character, or none. -/
def hexDigitVal (c : Char) : Option Nat :=
  if '0' ≤ c ∧ c ≤ '9' then some (c.toNat - '0'.toNat)
  else if 'a' ≤ c ∧ c ≤ 'f' then some (c.toNat - 'a'.toNat + 10)
  else if 'A' ≤ c ∧ c ≤ 'F' then some (c.toNat - 'A'.toNat + 10)
  else none

/-- Split a character list on a one-character separator (the char-level
counterpart of strings.Split). -/
def splitOnChar (sep : Char) : List Char → List (List Char)
  | [] => [[]]
  | c :: rest =>
    if c = sep then [] :: splitOnChar sep rest
    else
      match splitOnChar sep rest with
      | [] => [[c]]
      | g :: gs => (c :: g) :: gs

/-- Split a character list on the two-character separator "::", leftmost
match first. -/
def splitOnDoubleColon : List Char → List (List Char)
  | [] => [[]]
  | ':' :: ':' :: rest => [] :: splitOnDoubleColon rest
  | c :: rest =>
    match splitOnDoubleColon rest with
    | [] => [[c]]
    | g :: gs => (c :: g) :: gs

/-- One dotted-quad field: 1 to 3 decimal digits, value at most 255. -/
def parseDecOctet (cs : List Char) : Option Nat :=
  if cs.length = 0 ∨ cs.length > 3 then none
  else
    match cs.foldlM (fun acc c => (decDigitVal c).map (fun d => acc * 10 + d)) 0 with
    | none => none
    | some n => if n ≤ 255 then some n else none

/-- Dotted-quad IPv4 parsing: four octet fields separated by dots. -/
def parseIPv4 (s : String) : Option NetIP :=
  match splitOnChar '.' s.toList with
  | [a, b, c, d] =>
    match parseDecOctet a, parseDecOctet b, parseDecOctet c, parseDecOctet d with
    | some a', some b', some c', some d' => some (.v4 a' b' c' d')
    | _, _, _, _ => none
  | _ => none

/-- One IPv6 group: 1 to 4 hex digits. -/
def parseHexGroup (cs : List Char) : Option Nat :=
  if cs.length = 0 ∨ cs.length > 4 then none
  else cs.foldlM (fun acc c => (hexDigitVal c).map (fun d => acc * 16 + d)) 0

/-- 16-bit groups to the byte list. -/
def groupsToBytes (gs : List Nat) : List Nat :=
  gs.flatMap (fun g => [g / 256, g % 256])

/-- Colon-hex IPv6 parsing: eight hex groups, or two runs of groups joined by
one "::" zero-compression marker. (Model of the stdlib parser; the embedded
dotted-quad tail form is not modelled — no claim depends on it.) -/
def parseIPv6 (s : String) : Option NetIP :=
  match splitOnDoubleColon s.toList with
  | [whole] =>
    let fields := splitOnChar ':' whole
    if fields.length = 8 then
      (fields.mapM parseHexGroup).map (fun gs => NetIP.v6 (groupsToBytes gs))
    else none
  | [l, r] =>
    let lf := if l = [] then [] else splitOnChar ':' l
    let rf := if r = [] then [] else splitOnChar ':' r
    if lf.length + rf.length ≤ 7 then
      match lf.mapM parseHexGroup, rf.mapM parseHexGroup with
      | some lg, some rg =>
        some (.v6 (groupsToBytes (lg ++ List.replicate (8 - lf.length - rf.length) 0 ++ rg)))
      | _, _ => none
    else none
  | _ => none

/-- Go net.ParseIP (stdlib, external): the first dot or colon selects the
IPv4 or IPv6 grammar; a string with neither is not an address. -/
def ParseIP (s : String) : Option NetIP :=
  match s.toList.find? (fun c => c == '.' || c == ':') with
  | some c => if c = '.' then parseIPv4 s else parseIPv6 s
  | none => none

/-- Byte list to 16-bit groups, pairwise. -/
def groupsOfBytes : List Nat → List Nat
  | a :: b :: rest => (a * 256 + b) :: groupsOfBytes rest
  | _ => []

/-- Go net.IP.String on a non-nil address (stdlib, external): dotted quad for
IPv4; colon-hex groups for IPv6 (modelled without zero compression — no claim
inspects the text). -/
def NetIP.gostr : NetIP → String
  | .v4 a b c d => s!"{a}.{b}.{c}.{d}"
  | .v6 bs =>
    String.intercalate ":"
      ((groupsOfBytes bs).map (fun g => String.mk (Nat.toDigits 16 g)))

/-- Go ip.String() on a possibly-nil net.IP: the nil slice prints "<nil>". -/
def goIPString : Option NetIP → String
  | none => "<nil>"
  | some x => x.gostr

/-- An HTTP response as the adapter observes it: status code, raw body, and
the outcome of the external body decoder (xml/json) on that body. -/
structure HTTPResponse (β : Type) where
  statusCode : Nat
  body : String
  decoded : Except String β
  deriving Repr

/-- Modelled from the spec: utils.BodyToSingleLine is not under src/; §4.2
says the BadHTTPStatus error carries a single-line summary of the response
body. Line breaks are replaced by spaces. -/
def bodyToSingleLine (s : String) : String :=
  String.map (fun c => if c = '\n' ∨ c = '\r' then ' ' else c) s

/-- Whether a form/query value list has a field with the given key. -/
def hasField (vs : List (String × String)) (k : String) : Bool :=
  vs.any (fun kv => kv.1 == k)

namespace namecheap

/-- Extra settings decoded from the raw JSON blob
(namecheap/provider.go lines 36-39). -/
structure Settings where
  password : String
  useProviderIP : Bool
  deriving DecidableEq, Repr

/-- namecheap/provider.go lines 22-29. The matcher collaborator is the
injected NamecheapPassword shape predicate of common.Matcher. -/
structure Provider where
  domain : String
  host : String
  ipVersion : IPVersion
  password : String
  useProviderIP : Bool
  matcher : String → Bool

/-- namecheap/provider.go lines 57-62: nil error is `none`. -/
def isValid (p : Provider) : Option UpdateError :=
  if ¬ p.matcher p.password then some .malformedPassword else none

/-- namecheap/provider.go lines 31-55. json.Unmarshal is an external
collaborator, modelled by the outcome it produces on the raw data. -/
def New (data : Except String Settings) (domain host : String)
    (ipVersion : IPVersion) (matcher : String → Bool) :
    Except UpdateError Provider :=
  if ipVersion = .ip6 then .error .ipv6NotSupported
  else
    match data with
    | .error e => .error (.settingsDecode e)
    | .ok s =>
      let p : Provider := ⟨domain, host, ipVersion, s.password, s.useProviderIP, matcher⟩
      match isValid p with
      | some e => .error e
      | none => .ok p

/-- Decoded XML response shape (namecheap/provider.go lines 139-144):
`errorsErr` is the nested Errors.Error text, `ip` the IP element. -/
structure ParsedXML where
  errorsErr : String
  ip : String
  deriving DecidableEq, Repr

/-- namecheap/provider.go lines 108-115: the query values set on the request
URL (insertion order; url.Values.Encode sorting is presentational only). -/
def updateValues (p : Provider) (ip : Option NetIP) : List (String × String) :=
  [("host", p.host), ("domain", p.domain), ("password", p.password)] ++
    (if ¬ p.useProviderIP then [("ip", goIPString ip)] else [])

/-- namecheap/provider.go lines 102-167: Update, given the outcome of
client.Do (the external HTTP collaborator; its error branch is lines
123-126, returning the transport error with a nil IP). Request construction
is `updateValues`; http.NewRequestWithContext never fails on this fixed
method and URL. -/
def Update (p : Provider) (ip : Option NetIP)
    (doResult : Except String (HTTPResponse ParsedXML)) : GoResult (Option NetIP) :=
  match doResult with
  | .error e => .err (.transport e)
  | .ok response =>
    if response.statusCode ≠ 200 then
      .err (.badHTTPStatus response.statusCode (bodyToSingleLine response.body))
    else
      match response.decoded with
      | .error e => .err (.unmarshalResponse e)
      | .ok parsedXML =>
        if parsedXML.errorsErr ≠ "" then
          .err (.unsuccessfulResponse parsedXML.errorsErr)
        else if parsedXML.ip = "" then
          .ok ip
        else
          match ParseIP parsedXML.ip with
          | none => .err (.ipReceivedMalformed parsedXML.ip)
          | some newIP =>
            if ip ≠ none ∧ ¬ netIPEqual ip (some newIP) then
              .err (.ipReceivedMismatch newIP.gostr)
            else .ok (some newIP)

end namecheap

namespace dondominio

/-- Extra settings decoded from the raw JSON blob
(dondominio/provider.go lines 31-35). -/
structure Settings where
  username : String
  password : String
  name : String
  deriving DecidableEq, Repr

/-- dondominio/provider.go lines 20-27. -/
structure Provider where
  domain : String
  host : String
  ipVersion : IPVersion
  username : String
  password : String
  name : String
  deriving DecidableEq, Repr

/-- dondominio/provider.go lines 56-68: the switch checks username, password,
record name and host in that order; nil error is `none`. -/
def isValid (p : Provider) : Option UpdateError :=
  if p.username.length = 0 then some .emptyUsername
  else if p.password.length = 0 then some .emptyPassword
  else if p.name.length = 0 then some .emptyName
  else if p.host ≠ "@" then some .hostOnlyAt
  else none

/-- dondominio/provider.go lines 29-54: decode, default an empty host to "@",
then validate. -/
def New (data : Except String Settings) (domain host : String)
    (ipVersion : IPVersion) : Except UpdateError Provider :=
  match data with
  | .error e => .error (.settingsDecode e)
  | .ok s =>
    let host' := if host.length = 0 then "@" else host
    let p : Provider := ⟨domain, host', ipVersion, s.username, s.password, s.name⟩
    match isValid p with
    | some e => .error e
    | none => .ok p

/-- One glue record of the JSON envelope
(dondominio/provider.go lines 151-154). -/
structure GlueRecord where
  ipv4 : String
  ipv6 : String
  deriving DecidableEq, Repr

/-- Decoded JSON envelope (dondominio/provider.go lines 146-156). -/
structure ResponseData where
  success : Bool
  errorCode : Int
  errorCodeMessage : String
  glueRecords : List GlueRecord
  deriving DecidableEq, Repr

/-- dondominio/provider.go lines 114-126: the form-encoded body values, in
insertion order; lines 119-124 choose exactly one of ipv4/ipv6 from
`ip.To4() != nil`. -/
def updateValues (p : Provider) (ip : Option NetIP) : List (String × String) :=
  [("apiuser", p.username), ("apipasswd", p.password),
   ("domain", p.domain), ("name", p.name)] ++
    (if netIPTo4 ip ≠ none then [("ipv4", goIPString ip)]
     else [("ipv6", goIPString ip)])

/-- dondominio/provider.go lines 109-176: Update, given the outcome of
client.Do. `isIPv4` is the line 119 test recomputed on the same unchanged
`ip`. Line 165/167 indexes GlueRecords[0]: on an empty list Go panics with
an index-out-of-range runtime error, modelled by the `panicked` outcome. -/
def Update (p : Provider) (ip : Option NetIP)
    (doResult : Except String (HTTPResponse ResponseData)) : GoResult (Option NetIP) :=
  match doResult with
  | .error e => .err (.transport e)
  | .ok response =>
    if response.statusCode ≠ 200 then
      .err (.badHTTPStatus response.statusCode (bodyToSingleLine response.body))
    else
      match response.decoded with
      | .error e => .err (.unmarshalResponse e)
      | .ok responseData =>
        if ¬ responseData.success then
          .err (.unsuccessfulResponseCode responseData.errorCodeMessage responseData.errorCode)
        else
          let isIPv4 := netIPTo4 ip ≠ none
          match responseData.glueRecords with
          | [] => .panicked "runtime error: index out of range [0] with length 0"
          | g :: _ =>
            let ipString := if isIPv4 then g.ipv4 else g.ipv6
            match ParseIP ipString with
            | none => .err (.ipReceivedMalformed ipString)
            | some newIP =>
              if ¬ netIPEqual ip (some newIP) then
                .err (.ipReceivedMismatch newIP.gostr)
              else .ok (some newIP)

end dondominio

namespace health

/-- Phase of one Run execution (src/unnamed/part_000, Server.Run lines
26-53): `serving` while the for-loop of lines 45-52 is active, `stopped`
once Run has returned. -/
inductive Phase
  | serving
  | stopped
  deriving DecidableEq, Repr

/-- Observable state of one Run execution: the loop phase, whether the
supervising context has been canceled (ctx.Err() != nil), whether the done
channel has been closed (the deferred close(done) of line 27), how many
times ListenAndServe has been entered (line 47), and how many close(done)
actions have occurred. -/
structure RunState where
  phase : Phase
  canceled : Bool
  doneClosed : Bool
  listens : Nat
  closes : Nat
  deriving DecidableEq, Repr

/-- Events driving the loop: the supervising context is canceled, or the
current ListenAndServe call returns (`errored` true means it returned a
non-nil error, the crash case of line 48; after Shutdown it returns
ErrServerClosed with the context already canceled). -/
inductive Event
  | cancel
  | listenerExit (errored : Bool)
  deriving DecidableEq, Repr

/-- Run entered with a live context and the first ListenAndServe call in
flight (lines 45-47). -/
def runInit : RunState := ⟨.serving, false, false, 1, 0⟩

/-- One step of the Run loop. A `cancel` marks the context canceled. A
`listenerExit` while serving re-checks ctx.Err() (lines 48 and 45): if the
context is canceled the loop terminates and Run returns, firing the deferred
close(done); otherwise the loop iterates and ListenAndServe is entered again
(the crash-restart of lines 48-51, logging only). After Run has returned no
listener is running, so a `listenerExit` is absorbed. -/
def step (s : RunState) : Event → RunState
  | .cancel => ⟨s.phase, true, s.doneClosed, s.listens, s.closes⟩
  | .listenerExit _ =>
    match s.phase with
    | .stopped => s
    | .serving =>
      if s.canceled then ⟨.stopped, s.canceled, true, s.listens, s.closes + 1⟩
      else ⟨.serving, s.canceled, s.doneClosed, s.listens + 1, s.closes⟩

/-- The state after a sequence of events, from the initial state. -/
def run (es : List Event) : RunState := es.foldl step runInit

/-- Inductive invariant of the Run loop: the done channel is closed exactly
as many times as its flag says (at most once), closing implies the context
was canceled and Run has returned, and while serving the channel is open. -/
def Inv (s : RunState) : Prop :=
  (s.doneClosed = true ↔ s.closes = 1) ∧ s.closes ≤ 1 ∧
    (s.doneClosed = true → s.canceled = true ∧ s.phase = .stopped) ∧
    (s.phase = .serving → s.doneClosed = false)

theorem inv_runInit : Inv runInit := by
  refine ⟨by simp [runInit], by simp [runInit], by simp [runInit], by simp [runInit]⟩

theorem inv_step (s : RunState) (e : Event) (h : Inv s) : Inv (step s e) := by
  obtain ⟨phase, canceled, doneClosed, listens, closes⟩ := s
  simp only [Inv] at h ⊢
  cases e <;> cases phase <;> cases canceled <;> cases doneClosed <;>
    simp_all [step] <;> omega

theorem inv_foldl (es : List Event) (s : RunState) (h : Inv s) :
    Inv (es.foldl step s) := by
  induction es generalizing s with
  | nil => exact h
  | cons e es ih => exact ih (step s e) (inv_step s e h)

theorem inv_run (es : List Event) : Inv (run es) :=
  inv_foldl es runInit inv_runInit

end health


/-- A concrete Namecheap provider for closed evaluations. -/
def ncProviderEx : namecheap.Provider :=
  ⟨"example.com", "@", .ip4, "0123456789abcdef0123456789abcdef", false, fun _ => true⟩

/-- A concrete DonDominio provider for closed evaluations. -/
def ddProviderEx : dondominio.Provider :=
  ⟨"example.com", "@", .ip4, "user", "secret", "record"⟩

/-- The DonDominio structural-validation rules in the documented fixed order
(spec §4.1 rule 4 and §8): empty username, then empty password, then empty
record name, then — after defaulting an empty host to "@" — host different
from "@". Written from the spec's wording, to compare with the code's
`dondominio.isValid`. -/
def ddRules (s : dondominio.Settings) (host : String) : List (Bool × UpdateError) :=
  [(decide (s.username.length = 0), .emptyUsername),
   (decide (s.password.length = 0), .emptyPassword),
   (decide (s.name.length = 0), .emptyName),
   (decide ((if host.length = 0 then "@" else host) ≠ "@"), .hostOnlyAt)]

/-- The earliest violated rule, if any. -/
def ddFirstViolation (s : dondominio.Settings) (host : String) : Option UpdateError :=
  ((ddRules s host).find? (fun r => r.1)).map (fun r => r.2)

/-- The DonDominio form body carries the ipv4 field exactly when the passed
address is IPv4-representable, and the ipv6 field exactly otherwise
(dondominio/provider.go lines 119-124). -/
theorem dd_updateValues_fields (p : dondominio.Provider) (ip : NetIP) :
    hasField (dondominio.updateValues p (some ip)) "ipv4" = ip.isV4 ∧
    hasField (dondominio.updateValues p (some ip)) "ipv6" = !ip.isV4 := by
  cases h : ip.to4 with
  | none =>
    simp [dondominio.updateValues, hasField, netIPTo4, NetIP.isV4, h]
  | some x =>
    simp [dondominio.updateValues, hasField, netIPTo4, NetIP.isV4, h]

/-- C1: the Update contract requires exactly one of a non-nil confirmed IP
with nil error or a nil IP with non-nil error — never both nil. The code
violates it at the named input: the Namecheap Update called with a nil
requested IP, on a 200 response whose decoded XML has empty error text and
an empty IP field (provider.go lines 153-157), returns the requested nil IP
together with a nil error, i.e. `.ok none` — both nil. -/
theorem c1_namecheap_nil_ip_empty_field_both_nil :
    namecheap.Update ncProviderEx none
      (.ok ⟨200, "<interface-response/>", .ok ⟨"", ""⟩⟩) = .ok none := by
  rfl

/-- C3: the Namecheap New with IP version IPv6 returns the dedicated
unsupported-IP-version error for every raw-settings decode outcome and every
matcher — no decoding or validation outcome influences the result
(provider.go lines 33-35). -/
theorem c3_namecheap_new_rejects_ipv6_first :
    ∀ (data : Except String namecheap.Settings) (domain host : String)
      (matcher : String → Bool),
      namecheap.New data domain host .ip6 matcher = .error .ipv6NotSupported := by
  intro data domain host matcher
  rfl

/-- C4: the DonDominio New, on decoded settings, fails with the error of the
earliest violated structural-validation rule in the fixed order (empty
username, empty password, empty record name, then host ≠ "@" after
defaulting an empty host to "@"), and succeeds exactly when no rule is
violated (provider.go lines 29-68). -/
theorem c4_dondominio_new_first_rule_wins :
    ∀ (s : dondominio.Settings) (domain host : String) (v : IPVersion),
      dondominio.New (.ok s) domain host v =
        match ddFirstViolation s host with
        | some e => .error e
        | none => .ok ⟨domain, (if host.length = 0 then "@" else host), v,
                       s.username, s.password, s.name⟩ := by
  intro s domain host v
  simp only [dondominio.New, dondominio.isValid, ddFirstViolation, ddRules, List.find?]
  by_cases h1 : s.username.length = 0 <;>
    by_cases h2 : s.password.length = 0 <;>
      by_cases h3 : s.name.length = 0 <;>
        by_cases h4 : (if host.length = 0 then "@" else host) = "@" <;>
          simp [h1, h2, h3, h4]

/-- C5: the Namecheap Update, for every requested IP and every 200 response
decoding with empty vendor error text and an empty IP field, treats the
response as success and returns the requested IP unchanged with nil error
(provider.go lines 153-157). -/
theorem c5_namecheap_empty_ip_field_returns_requested :
    ∀ (p : namecheap.Provider) (ip : Option NetIP)
      (resp : HTTPResponse namecheap.ParsedXML) (px : namecheap.ParsedXML),
      resp.statusCode = 200 → resp.decoded = .ok px →
      px.errorsErr = "" → px.ip = "" →
      namecheap.Update p ip (.ok resp) = .ok ip := by
  intro p ip resp px hs hd he hi
  obtain ⟨sc, body, dec⟩ := resp
  simp only at hs hd
  subst hs
  subst hd
  simp [namecheap.Update, he, hi]

/-- Witness for C5 at a concrete provider, requested IP and response. -/
theorem c5_namecheap_empty_ip_field_returns_requested_witness :
    namecheap.Update ncProviderEx (some (.v4 1 2 3 4))
      (.ok ⟨200, "<interface-response/>", .ok ⟨"", ""⟩⟩) = .ok (some (.v4 1 2 3 4)) :=
  c5_namecheap_empty_ip_field_returns_requested ncProviderEx (some (.v4 1 2 3 4))
    ⟨200, "<interface-response/>", .ok ⟨"", ""⟩⟩ ⟨"", ""⟩ rfl rfl rfl rfl

/-- C6: the Namecheap Update, for a non-nil requested IP and a 200 response
with no vendor error text and a nonempty IP field ("Otherwise" in spec §4.2:
the empty field is the §4.2 success case of C5), returns IPReceivedMismatch
with a nil IP when the field parses to an address not value-equal to the
requested one, and IPReceivedMalformed with a nil IP when the field does not
parse (provider.go lines 159-166). -/
theorem c6_namecheap_mismatch_and_malformed :
    ∀ (p : namecheap.Provider) (x newIP : NetIP)
      (resp : HTTPResponse namecheap.ParsedXML) (px : namecheap.ParsedXML),
      resp.statusCode = 200 → resp.decoded = .ok px → px.errorsErr = "" →
      px.ip ≠ "" →
      (ParseIP px.ip = some newIP → netIPEqual (some x) (some newIP) = false →
        namecheap.Update p (some x) (.ok resp) =
          .err (.ipReceivedMismatch newIP.gostr)) ∧
      (ParseIP px.ip = none →
        namecheap.Update p (some x) (.ok resp) =
          .err (.ipReceivedMalformed px.ip)) := by
  intro p x newIP resp px hs hd he hi
  obtain ⟨sc, body, dec⟩ := resp
  simp only at hs hd
  subst hs
  subst hd
  constructor
  · intro hp hne
    simp [namecheap.Update, he, hi, hp, hne]
  · intro hp
    simp [namecheap.Update, he, hi, hp]

/-- Witness for C6: a requested 1.2.3.4 against an echoed 5.6.7.8 is a
mismatch; an unparsable echoed field is malformed. -/
theorem c6_namecheap_mismatch_and_malformed_witness :
    namecheap.Update ncProviderEx (some (.v4 1 2 3 4))
        (.ok ⟨200, "", .ok ⟨"", "5.6.7.8"⟩⟩) =
      .err (.ipReceivedMismatch (NetIP.v4 5 6 7 8).gostr) ∧
    namecheap.Update ncProviderEx (some (.v4 1 2 3 4))
        (.ok ⟨200, "", .ok ⟨"", "bogus"⟩⟩) =
      .err (.ipReceivedMalformed "bogus") := by
  constructor
  · exact (c6_namecheap_mismatch_and_malformed ncProviderEx (.v4 1 2 3 4) (.v4 5 6 7 8)
      ⟨200, "", .ok ⟨"", "5.6.7.8"⟩⟩ ⟨"", "5.6.7.8"⟩ rfl rfl rfl (by decide)).1
      (by decide) (by decide)
  · exact (c6_namecheap_mismatch_and_malformed ncProviderEx (.v4 1 2 3 4) (.v4 5 6 7 8)
      ⟨200, "", .ok ⟨"", "bogus"⟩⟩ ⟨"", "bogus"⟩ rfl rfl rfl (by decide)).2
      (by decide)

/-- C2 as stated is false on the code: on a 200 response decoding with
success true and an EMPTY glue-record list, the DonDominio Update does not
complete with an IP or a typed error — it aborts on the GlueRecords[0]
array-index access (provider.go line 165), the panicked outcome here. -/
theorem c2_counterexample_empty_glue_records_aborts :
    dondominio.Update ddProviderEx (some (.v4 1 2 3 4))
      (.ok ⟨200, "{}", .ok ⟨true, 0, "", []⟩⟩) =
      .panicked "runtime error: index out of range [0] with length 0" := by
  rfl

/-- C2 amended: for every decoded DonDominio response with HTTP status 200,
success true, and a NONEMPTY glue-record list, Update completes by returning
an IP or a typed error; the empty list — the §9 open question — instead
aborts on the array-index access, as the counterexample shows. -/
theorem c2_amended_nonempty_glue_records_no_abort :
    ∀ (p : dondominio.Provider) (ip : Option NetIP)
      (resp : HTTPResponse dondominio.ResponseData) (rd : dondominio.ResponseData),
      resp.statusCode = 200 → resp.decoded = .ok rd → rd.success = true →
      rd.glueRecords ≠ [] →
      (∃ a, dondominio.Update p ip (.ok resp) = .ok a) ∨
      (∃ e, dondominio.Update p ip (.ok resp) = .err e) := by
  intro p ip resp rd hs hd hsucc hne
  obtain ⟨sc, body, dec⟩ := resp
  simp only at hs hd
  subst hs
  subst hd
  obtain ⟨succ, ecode, emsg, grs⟩ := rd
  simp only at hsucc
  subst hsucc
  cases grs with
  | nil => exact absurd rfl hne
  | cons g gs =>
    cases hip : netIPTo4 ip with
    | none =>
      cases hp : ParseIP g.ipv6 with
      | none =>
        right
        exact ⟨.ipReceivedMalformed g.ipv6, by simp [dondominio.Update, hip, hp]⟩
      | some newIP =>
        by_cases heq : netIPEqual ip (some newIP) = true
        · left
          exact ⟨some newIP, by simp [dondominio.Update, hip, hp, heq]⟩
        · right
          exact ⟨.ipReceivedMismatch newIP.gostr, by simp [dondominio.Update, hip, hp, heq]⟩
    | some x4 =>
      cases hp : ParseIP g.ipv4 with
      | none =>
        right
        exact ⟨.ipReceivedMalformed g.ipv4, by simp [dondominio.Update, hip, hp]⟩
      | some newIP =>
        by_cases heq : netIPEqual ip (some newIP) = true
        · left
          exact ⟨some newIP, by simp [dondominio.Update, hip, hp, heq]⟩
        · right
          exact ⟨.ipReceivedMismatch newIP.gostr, by simp [dondominio.Update, hip, hp, heq]⟩

/-- Witness for the amended C2 at a concrete provider, IP and one-element
glue-record list. -/
theorem c2_amended_nonempty_glue_records_no_abort_witness :
    (∃ a, dondominio.Update ddProviderEx (some (.v4 1 2 3 4))
        (.ok ⟨200, "{}", .ok ⟨true, 0, "", [⟨"1.2.3.4", "::1"⟩]⟩⟩) = .ok a) ∨
    (∃ e, dondominio.Update ddProviderEx (some (.v4 1 2 3 4))
        (.ok ⟨200, "{}", .ok ⟨true, 0, "", [⟨"1.2.3.4", "::1"⟩]⟩⟩) = .err e) :=
  c2_amended_nonempty_glue_records_no_abort ddProviderEx (some (.v4 1 2 3 4))
    ⟨200, "{}", .ok ⟨true, 0, "", [⟨"1.2.3.4", "::1"⟩]⟩⟩ ⟨true, 0, "", [⟨"1.2.3.4", "::1"⟩]⟩
    rfl rfl rfl (by decide)

/-- C7: every DonDominio Update request body carries exactly one of the
ipv4/ipv6 fields, chosen by the requested IP's version: the ipv4 field is
present exactly when the address is IPv4-representable, and the ipv6 field
exactly otherwise — never both (provider.go lines 119-124). -/
theorem c7_dondominio_exactly_one_ip_field :
    ∀ (p : dondominio.Provider) (ip : NetIP),
      hasField (dondominio.updateValues p (some ip)) "ipv4" = ip.isV4 ∧
      hasField (dondominio.updateValues p (some ip)) "ipv6" = !ip.isV4 :=
  fun p ip => dd_updateValues_fields p ip

/-- C8: for both adapters, every response with a status code other than 200
yields the BadHTTPStatus error carrying the status code and the single-line
body excerpt, with a nil IP, whatever the body decode outcome
(namecheap/provider.go lines 129-132, dondominio/provider.go lines 140-143). -/
theorem c8_non_200_always_bad_http_status :
    ∀ (pn : namecheap.Provider) (pd : dondominio.Provider) (ip : Option NetIP)
      (r1 : HTTPResponse namecheap.ParsedXML)
      (r2 : HTTPResponse dondominio.ResponseData),
      r1.statusCode ≠ 200 → r2.statusCode ≠ 200 →
      namecheap.Update pn ip (.ok r1) =
        .err (.badHTTPStatus r1.statusCode (bodyToSingleLine r1.body)) ∧
      dondominio.Update pd ip (.ok r2) =
        .err (.badHTTPStatus r2.statusCode (bodyToSingleLine r2.body)) := by
  intro pn pd ip r1 r2 h1 h2
  obtain ⟨s1, b1, d1⟩ := r1
  obtain ⟨s2, b2, d2⟩ := r2
  simp only at h1 h2
  exact ⟨by simp [namecheap.Update, h1], by simp [dondominio.Update, h2]⟩

/-- Witness for C8 at status 500 with arbitrary decodable bodies. -/
theorem c8_non_200_always_bad_http_status_witness :
    namecheap.Update ncProviderEx none (.ok ⟨500, "oops", .ok ⟨"", ""⟩⟩) =
        .err (.badHTTPStatus 500 (bodyToSingleLine "oops")) ∧
    dondominio.Update ddProviderEx none (.ok ⟨500, "oops", .ok ⟨true, 0, "", []⟩⟩) =
        .err (.badHTTPStatus 500 (bodyToSingleLine "oops")) :=
  c8_non_200_always_bad_http_status ncProviderEx ddProviderEx none
    ⟨500, "oops", .ok ⟨"", ""⟩⟩ ⟨500, "oops", .ok ⟨true, 0, "", []⟩⟩
    (by decide) (by decide)

/-- C9: in the liveness server's Run loop, a listener exit with an error
while the context is not canceled restarts the listener (one more listen,
same phase) and leaves the done channel untouched; over every event
sequence, the done channel is closed exactly once when it is closed at all,
closing implies the context was canceled, and while the loop is serving the
channel has never been closed — so no crash-restart path closes it
(src/unnamed/part_000 lines 26-53). -/
theorem c9_done_channel_closed_once_only_after_cancel :
    (∀ s : health.RunState, s.phase = .serving → s.canceled = false →
      health.step s (.listenerExit true) =
        ⟨.serving, s.canceled, s.doneClosed, s.listens + 1, s.closes⟩) ∧
    (∀ es : List health.Event,
      ((health.run es).doneClosed = true →
        (health.run es).canceled = true ∧ (health.run es).closes = 1) ∧
      ((health.run es).doneClosed = false → (health.run es).closes = 0) ∧
      ((health.run es).phase = .serving → (health.run es).doneClosed = false)) := by
  constructor
  · intro s hp hc
    obtain ⟨phase, canceled, doneClosed, listens, closes⟩ := s
    simp only at hp hc
    subst hp
    subst hc
    simp [health.step]
  · intro es
    obtain ⟨h1, h2, h3, h4⟩ := health.inv_run es
    refine ⟨fun hd => ⟨(h3 hd).1, h1.mp hd⟩, fun hd => ?_, h4⟩
    by_contra hne
    have hone : (health.run es).closes = 1 := by omega
    have hdt := h1.mpr hone
    rw [hd] at hdt
    exact Bool.false_ne_true hdt

/-- Witness for C9: a concrete crash-restart step from the initial state,
and a trace crash → cancel → listener exit that closes the done channel
exactly once. -/
theorem c9_done_channel_closed_once_only_after_cancel_witness :
    health.step ⟨.serving, false, false, 1, 0⟩ (.listenerExit true) =
      ⟨.serving, false, false, 2, 0⟩ ∧
    (health.run [.listenerExit true, .cancel, .listenerExit false]).doneClosed = true ∧
    (health.run [.listenerExit true, .cancel, .listenerExit false]).canceled = true ∧
    (health.run [.listenerExit true, .cancel, .listenerExit false]).closes = 1 := by
  refine ⟨?_, ?_⟩
  · exact c9_done_channel_closed_once_only_after_cancel.1 ⟨.serving, false, false, 1, 0⟩ rfl rfl
  · have h := (c9_done_channel_closed_once_only_after_cancel.2
      [.listenerExit true, .cancel, .listenerExit false]).1 (by decide)
    exact ⟨by decide, h.1, h.2⟩

/-- C10: in the DonDominio Update, the choice between the ipv4 and ipv6 form
fields, and the whole response handling including the choice between the
first glue record's IPv4 and IPv6 fields, are independent of the
configured ipVersion and determined solely by the passed IP's
IPv4-representability: a provider configured for v6 still populates ipv4
(only) for an IPv4 address, and a provider configured for v4 still
populates ipv6 (only) for a non-IPv4 address
(dondominio/provider.go lines 119-124 and 165-168). -/
theorem c10_field_choice_ignores_configured_version :
    ∀ (p : dondominio.Provider) (v v' : IPVersion) (ip : Option NetIP)
      (doResult : Except String (HTTPResponse dondominio.ResponseData)),
      dondominio.updateValues ⟨p.domain, p.host, v, p.username, p.password, p.name⟩ ip =
        dondominio.updateValues ⟨p.domain, p.host, v', p.username, p.password, p.name⟩ ip ∧
      dondominio.Update ⟨p.domain, p.host, v, p.username, p.password, p.name⟩ ip doResult =
        dondominio.Update ⟨p.domain, p.host, v', p.username, p.password, p.name⟩ ip doResult ∧
      (∀ ip4 : NetIP, ip4.isV4 = true →
        hasField (dondominio.updateValues
          ⟨p.domain, p.host, .ip6, p.username, p.password, p.name⟩ (some ip4)) "ipv4" = true ∧
        hasField (dondominio.updateValues
          ⟨p.domain, p.host, .ip6, p.username, p.password, p.name⟩ (some ip4)) "ipv6" = false) ∧
      (∀ ip6a : NetIP, ip6a.isV4 = false →
        hasField (dondominio.updateValues
          ⟨p.domain, p.host, .ip4, p.username, p.password, p.name⟩ (some ip6a)) "ipv6" = true ∧
        hasField (dondominio.updateValues
          ⟨p.domain, p.host, .ip4, p.username, p.password, p.name⟩ (some ip6a)) "ipv4" = false) := by
  intro p v v' ip doResult
  refine ⟨rfl, rfl, ?_, ?_⟩
  · intro ip4 h4
    have h := dd_updateValues_fields ⟨p.domain, p.host, .ip6, p.username, p.password, p.name⟩ ip4
    rw [h4] at h
    exact ⟨h.1, by simpa using h.2⟩
  · intro ip6a h6
    have h := dd_updateValues_fields ⟨p.domain, p.host, .ip4, p.username, p.password, p.name⟩ ip6a
    rw [h6] at h
    exact ⟨by simpa using h.2, h.1⟩

/-- Witness for C10: a v6-configured provider with an IPv4 address populates
the ipv4 field only, and handles the response identically to a v4-configured
one. -/
theorem c10_field_choice_ignores_configured_version_witness :
    dondominio.Update ⟨"example.com", "@", .ip6, "user", "secret", "record"⟩
        (some (.v4 1 2 3 4)) (.error "network down") =
      dondominio.Update ⟨"example.com", "@", .ip4, "user", "secret", "record"⟩
        (some (.v4 1 2 3 4)) (.error "network down") ∧
    hasField (dondominio.updateValues ⟨"example.com", "@", .ip6, "user", "secret", "record"⟩
      (some (.v4 1 2 3 4))) "ipv4" = true ∧
    hasField (dondominio.updateValues ⟨"example.com", "@", .ip6, "user", "secret", "record"⟩
      (some (.v4 1 2 3 4))) "ipv6" = false := by
  have h := c10_field_choice_ignores_configured_version
    ⟨"example.com", "@", .ip4, "user", "secret", "record"⟩ .ip6 .ip4
    (some (.v4 1 2 3 4)) (.error "network down")
  exact ⟨h.2.1, (h.2.2.1 (.v4 1 2 3 4) (by decide)).1, (h.2.2.1 (.v4 1 2 3 4) (by decide)).2⟩
